import Mathlib

/-!
Shallow embedding of the mercury client RPC engine (src/src/mercury.c) and its
CCI network-abstraction back end (src/src/na/na_cci.c).

Byte buffers are lists of byte values; queues are lists with the push and pop
conventions of the hg_queue collaborator (push at the head, pop at the tail);
memcpy lengths are tracked explicitly so that out-of-bounds copy requests stay
observable in the model.
-/

/-- NA return codes used by na_cci.c (the enum declaration lives in a header
that is not under src; the constructor set is the one the source file uses). -/
inductive na_return where
  | NA_SUCCESS
  | NA_TIMEOUT
  | NA_INVALID_PARAM
  | NA_SIZE_ERROR
  | NA_NOMEM_ERROR
  | NA_PROTOCOL_ERROR
  | NA_PERMISSION_ERROR
  deriving DecidableEq, Repr

/-- Modelled from the spec: the mercury return-code enumeration of section 7
(SUCCESS, FAIL, TIMEOUT, INVALID_PARAM, SIZE_ERROR, NOMEM_ERROR,
PROTOCOL_ERROR, NO_MATCH, CHECKSUM_ERROR, PERMISSION_ERROR); the declaring
header mercury_error.h is not under src, only its users are. -/
inductive hg_return where
  | HG_SUCCESS
  | HG_FAIL
  | HG_TIMEOUT
  | HG_INVALID_PARAM
  | HG_SIZE_ERROR
  | HG_NOMEM_ERROR
  | HG_PROTOCOL_ERROR
  | HG_NO_MATCH
  | HG_CHECKSUM_ERROR
  | HG_PERMISSION_ERROR
  deriving DecidableEq, Repr

/-- HG_Error_to_string (mercury.c lines 1020-1036): a chain of
HG_ERROR_STRING_MACRO lines, each overwriting the fallback string when the
code matches; the macro list stops at HG_CHECKSUM_ERROR and has no line for
HG_PERMISSION_ERROR. -/
def HG_Error_to_string (errnum : hg_return) : String :=
  let s0 := "UNDEFINED/UNRECOGNIZED NA ERROR"
  let s1 := if errnum = hg_return.HG_FAIL then "HG_FAIL" else s0
  let s2 := if errnum = hg_return.HG_SUCCESS then "HG_SUCCESS" else s1
  let s3 := if errnum = hg_return.HG_TIMEOUT then "HG_TIMEOUT" else s2
  let s4 := if errnum = hg_return.HG_INVALID_PARAM then "HG_INVALID_PARAM" else s3
  let s5 := if errnum = hg_return.HG_SIZE_ERROR then "HG_SIZE_ERROR" else s4
  let s6 := if errnum = hg_return.HG_NOMEM_ERROR then "HG_NOMEM_ERROR" else s5
  let s7 := if errnum = hg_return.HG_PROTOCOL_ERROR then "HG_PROTOCOL_ERROR" else s6
  let s8 := if errnum = hg_return.HG_NO_MATCH then "HG_NO_MATCH" else s7
  let s9 := if errnum = hg_return.HG_CHECKSUM_ERROR then "HG_CHECKSUM_ERROR" else s8
  s9

/-- Encode and decode routine pair stored in the function map (struct
hg_proc_info, mercury.c lines 52-55); the function pointers are modelled as
numeric identifiers. -/
structure hg_proc_info where
  enc_routine : Nat
  dec_routine : Nat
  deriving DecidableEq, Repr

/-- The mercury hash-table collaborator keyed by the 32-bit procedure id
(hg_int_hash and hg_int_equal compare key values): insertion replaces the
value when the key is already present, otherwise adds the pair. -/
def hg_hash_table_insert : List (Nat × hg_proc_info) → Nat → hg_proc_info →
    List (Nat × hg_proc_info)
  | [], k, v => [(k, v)]
  | (k2, v2) :: rest, k, v =>
    if k2 = k then (k, v) :: rest else (k2, v2) :: hg_hash_table_insert rest k v

/-- Lookup in the function map by procedure id. -/
def hg_hash_table_lookup : List (Nat × hg_proc_info) → Nat → Option hg_proc_info
  | [], _ => none
  | (k2, v2) :: rest, k => if k2 = k then some v2 else hg_hash_table_lookup rest k

/-- The process-wide function map hg_func_map_g: absent before HG_Init
(operations then fail), a table of id to proc-info pairs afterwards. -/
structure FuncMap where
  initialized : Bool
  table : List (Nat × hg_proc_info)
  deriving DecidableEq, Repr

/-- HG_Register (mercury.c lines 659-703): computes the id by hashing the
name (hg_hash_string is a collaborator header not under src, so the hash is a
parameter here), stores the enc and dec routines into the function map under
that id, and returns the id; 0 is returned when the map does not exist.  No
comparison against previously registered names takes place. -/
def HG_Register (hash : String → Nat) (m : FuncMap) (func_name : String)
    (enc_routine dec_routine : Nat) : Nat × FuncMap :=
  if !m.initialized then (0, m)
  else
    let id := hash func_name
    (id, ⟨true, hg_hash_table_insert m.table id ⟨enc_routine, dec_routine⟩⟩)

/-- Client-side RPC request state (struct hg_request, mercury.c lines 35-50).
Heap pointers are modelled by their non-null status; the two futures of the
request utility are modelled by their completion flags. -/
structure hg_request where
  send_buf : Bool
  send_buf_size : Nat
  extra_send_buf : Bool
  extra_send_buf_size : Nat
  extra_send_buf_handle : Bool
  recv_buf : Bool
  recv_buf_size : Nat
  send_request_completed : Bool
  recv_request_completed : Bool
  deriving DecidableEq, Repr

/-- hg_send_input_cb (mercury.c lines 386-405): on a transport failure the
callback returns at once (ret stays NA_SUCCESS) touching nothing; on success
it frees the send buffer, nulls the pointer, zeroes the size, and completes
the send future via hg_request_complete. -/
def hg_send_input_cb (cb_ret : na_return) (r : hg_request) : na_return × hg_request :=
  if cb_ret ≠ na_return.NA_SUCCESS then (na_return.NA_SUCCESS, r)
  else
    (na_return.NA_SUCCESS,
      { r with send_buf := false, send_buf_size := 0, send_request_completed := true })

/-- hg_recv_output_cb (mercury.c lines 408-463): on a transport failure it
jumps to done touching nothing; on success it first releases the extra send
buffer and its bulk handle, then decodes the response header, verifies it,
decodes the output, and only if all three steps succeed frees the receive
buffer and completes the receive future.  The three proc-engine steps are
external collaborators, so their outcomes are parameters. -/
def hg_recv_output_cb (cb_ret : na_return) (hdr_ok verify_ok output_ok : Bool)
    (r : hg_request) : na_return × hg_request :=
  if cb_ret ≠ na_return.NA_SUCCESS then (na_return.NA_SUCCESS, r)
  else
    let r1 := { r with extra_send_buf := false, extra_send_buf_size := 0,
                       extra_send_buf_handle := false }
    if !hdr_ok then (na_return.NA_SUCCESS, r1)
    else if !verify_ok then (na_return.NA_SUCCESS, r1)
    else if !output_ok then (na_return.NA_SUCCESS, r1)
    else
      (na_return.NA_SUCCESS,
        { r1 with recv_buf := false, recv_buf_size := 0, recv_request_completed := true })

/-- Completion-queue record pushed by na_cci_complete through
na_cb_completion_add; trigger later pops these and invokes one callback per
record. -/
structure completion_entry where
  cb : Nat
  ret : na_return
  actual_size : Nat
  tag : Nat
  deriving DecidableEq, Repr

/-- na_cci_complete for a NA_CB_RECV_EXPECTED op (na_cci.c lines 1767-1775):
when the recorded actual size differs from the posted buffer size the
function fails with NA_SIZE_ERROR and no completion record is queued;
otherwise the callback record joins the completion queue. -/
def na_cci_complete_recv_expected (cq : List completion_entry)
    (buf_size actual_size tag : Nat) : na_return × List completion_entry :=
  if actual_size ≠ buf_size then (na_return.NA_SIZE_ERROR, cq)
  else (na_return.NA_SUCCESS, cq ++ [⟨0, na_return.NA_SUCCESS, actual_size, tag⟩])

/-- Posted expected receive (struct na_cci_info_recv_expected) as queued on
the rxs list of its address. -/
structure na_cci_info_recv_expected where
  buf_size : Nat
  actual_size : Nat
  tag : Nat
  deriving DecidableEq, Repr

/-- Early expected receive cached on the early list of its address
(handle_recv_expected sets buf_size and actual_size to the payload length). -/
structure EarlyRx where
  buf : List Nat
  buf_size : Nat
  tag : Nat
  deriving DecidableEq, Repr

/-- Address-scoped queues of struct na_cci_addr: posted expected receives
(rxs) and early expected receives (early), both FIFO TAILQ lists. -/
structure na_cci_addr where
  rxs : List na_cci_info_recv_expected
  early : List EarlyRx
  deriving DecidableEq, Repr

/-- TAILQ_FOREACH scan of the early list for the first entry with the wanted
tag, also returning the list with that entry removed (TAILQ_REMOVE). -/
def find_remove_first_early : List EarlyRx → Nat → Option (EarlyRx × List EarlyRx)
  | [], _ => none
  | rx :: rest, tag =>
    if rx.tag = tag then some (rx, rest)
    else
      match find_remove_first_early rest tag with
      | some (r, rest2) => some (r, rx :: rest2)
      | none => none

/-- TAILQ_FOREACH scan of the rxs list for the first posted receive with the
wanted tag, also returning the list with that entry removed. -/
def find_remove_first_rx : List na_cci_info_recv_expected → Nat →
    Option (na_cci_info_recv_expected × List na_cci_info_recv_expected)
  | [], _ => none
  | op :: rest, tag =>
    if op.tag = tag then some (op, rest)
    else
      match find_remove_first_rx rest tag with
      | some (r, rest2) => some (r, op :: rest2)
      | none => none

/-- Result of posting an expected receive: the return code of the call, the
length handed to memcpy into the posted buffer, the recorded actual size,
whether an early message matched, and whether the op was queued on rxs. -/
structure RecvExpectedOutcome where
  ret : na_return
  copy_len : Nat
  actual_size : Nat
  matched_early : Bool
  queued : Bool
  deriving DecidableEq, Repr

/-- na_cci_msg_recv_expected (na_cci.c lines 1152-1215): scan the early list
for the first tag match; on a match the copy length is computed as
buf_size > rx.buf_size ? buf_size : rx.buf_size (the larger of the two), the
entry is removed and freed, and na_cci_complete is called with that length as
the actual size; with no match the op is appended to the rxs list. -/
def na_cci_msg_recv_expected (addr : na_cci_addr) (cq : List completion_entry)
    (buf_size tag : Nat) :
    RecvExpectedOutcome × na_cci_addr × List completion_entry :=
  match find_remove_first_early addr.early tag with
  | some (rx, rest) =>
    let len := if buf_size > rx.buf_size then buf_size else rx.buf_size
    let r := na_cci_complete_recv_expected cq buf_size len tag
    (⟨r.1, len, len, true, false⟩, ⟨addr.rxs, rest⟩, r.2)
  | none =>
    (⟨na_return.NA_SUCCESS, 0, 0, false, true⟩,
      ⟨addr.rxs ++ [⟨buf_size, 0, tag⟩], addr.early⟩, cq)

/-- Result of an expected-receive transport event. -/
structure HandleRecvExpectedOutcome where
  copy_len : Nat
  actual_size : Nat
  matched : Bool
  deriving DecidableEq, Repr

/-- handle_recv_expected (na_cci.c lines 1498-1554): the payload length is
the event length minus the framing word; the rxs list is scanned for the
first tag match, the copy length is clamped to the posted buffer size, the op
is removed and completed; with no match the payload is cached at the tail of
the early list. -/
def handle_recv_expected (addr : na_cci_addr) (cq : List completion_entry)
    (tag : Nat) (payload : List Nat) :
    HandleRecvExpectedOutcome × na_cci_addr × List completion_entry :=
  let msg_len := payload.length
  match find_remove_first_rx addr.rxs tag with
  | some (op, rest) =>
    let len := if op.buf_size < msg_len then op.buf_size else msg_len
    let r := na_cci_complete_recv_expected cq op.buf_size len tag
    (⟨len, len, true⟩, ⟨rest, addr.early⟩, r.2)
  | none =>
    (⟨0, 0, false⟩, ⟨addr.rxs, addr.early ++ [⟨payload, msg_len, tag⟩]⟩, cq)

/-- Unexpected message buffered on the process-wide unexpected message queue
(struct na_cci_info_recv_unexpected as cached by handle_recv_unexpected). -/
structure UnexpRx where
  buf : List Nat
  buf_size : Nat
  tag : Nat
  deriving DecidableEq, Repr

/-- Posted unexpected receive waiting on the unexpected op queue. -/
structure UnexpOp where
  buf_size : Nat
  deriving DecidableEq, Repr

/-- hg_queue push at the head, as na_cci_msg_unexpected_push and
na_cci_msg_unexpected_op_push do. -/
def hg_queue_push_head {α : Type} (q : List α) (x : α) : List α := x :: q

/-- hg_queue pop at the tail, as na_cci_msg_unexpected_pop and
na_cci_msg_unexpected_op_pop do; together with push at the head this gives
FIFO order. -/
def hg_queue_pop_tail {α : Type} : List α → Option (α × List α)
  | [] => none
  | [x] => some (x, [])
  | x :: y :: rest =>
    match hg_queue_pop_tail (y :: rest) with
    | some (z, rest2) => some (z, x :: rest2)
    | none => none

/-- Result of posting an unexpected receive. -/
structure RecvUnexpectedOutcome where
  ret : na_return
  copy_len : Nat
  actual_size : Nat
  tag : Nat
  completed : Bool
  queued_op : Bool
  deriving DecidableEq, Repr

/-- na_cci_msg_recv_unexpected (na_cci.c lines 929-992): pop a buffered
unexpected message; when one exists the copy length starts at the staged
size and is lowered to the posted buffer size when that is smaller, the
bytes are copied, the actual size records the copy length and the op
completes; otherwise the op is pushed onto the unexpected op queue. -/
def na_cci_msg_recv_unexpected (msgq : List UnexpRx) (opq : List UnexpOp)
    (cq : List completion_entry) (buf_size : Nat) :
    RecvUnexpectedOutcome × List UnexpRx × List UnexpOp × List completion_entry :=
  match hg_queue_pop_tail msgq with
  | some (rx, msgq2) =>
    let msg_len := if buf_size < rx.buf_size then buf_size else rx.buf_size
    (⟨na_return.NA_SUCCESS, msg_len, msg_len, rx.tag, true, false⟩, msgq2, opq,
      cq ++ [⟨0, na_return.NA_SUCCESS, msg_len, rx.tag⟩])
  | none =>
    (⟨na_return.NA_SUCCESS, 0, 0, 0, false, true⟩, msgq,
      hg_queue_push_head opq ⟨buf_size⟩, cq)

/-- Result of an unexpected-receive transport event. -/
structure HandleRecvUnexpectedOutcome where
  copy_len : Nat
  actual_size : Nat
  matched : Bool
  deriving DecidableEq, Repr

/-- handle_recv_unexpected (na_cci.c lines 1557-1622): recv_len is the full
event length and msg_len is recv_len minus the framing word; when a posted op
is popped the copy length is buf_size if buf_size < recv_len - msg_len and
msg_len otherwise (this is the comparison as written in the source: the
right-hand side of the test is recv_len - msg_len, the size of the framing
word), the bytes are copied and the op completes; with no posted op the
payload is pushed onto the unexpected message queue. -/
def handle_recv_unexpected (msgq : List UnexpRx) (opq : List UnexpOp)
    (cq : List completion_entry) (tag : Nat) (payload : List Nat) :
    HandleRecvUnexpectedOutcome × List UnexpRx × List UnexpOp × List completion_entry :=
  let recv_len := payload.length + 4
  let msg_len := recv_len - 4
  match hg_queue_pop_tail opq with
  | some (op, opq2) =>
    let len := if op.buf_size < recv_len - msg_len then op.buf_size else msg_len
    (⟨len, len, true⟩, msgq, opq2, cq ++ [⟨0, na_return.NA_SUCCESS, len, tag⟩])
  | none =>
    (⟨0, 0, false⟩, hg_queue_push_head msgq ⟨payload, msg_len, tag⟩, opq, cq)

/-- Transport state threaded through the progress loop: the connection
address and its queues, the two process-wide unexpected queues, and the
completion queue of the context. -/
structure na_cci_state where
  addr : na_cci_addr
  unexpected_msg_queue : List UnexpRx
  unexpected_op_queue : List UnexpOp
  completion_queue : List completion_entry
  deriving DecidableEq, Repr

/-- The empty transport state. -/
def na_cci_state_empty : na_cci_state := ⟨⟨[], []⟩, [], [], []⟩

/-- CCI events dispatched by na_cci_progress; a receive event carries the
framing expect bit, the tag, and the payload bytes after the framing word. -/
inductive cci_event where
  | send
  | recv (expect : Bool) (tag : Nat) (payload : List Nat)
  | connect_request
  | connect
  | accept
  deriving DecidableEq, Repr

/-- handle_send (na_cci.c lines 1489-1495): the body is a bare return, so the
state is unchanged and nothing reaches the completion queue. -/
def handle_send (st : na_cci_state) : na_cci_state := st

/-- handle_recv (na_cci.c lines 1625-1638): demultiplex on the expect bit of
the framing word. -/
def handle_recv (st : na_cci_state) (expect : Bool) (tag : Nat)
    (payload : List Nat) : na_cci_state :=
  if expect then
    let r := handle_recv_expected st.addr st.completion_queue tag payload
    ⟨r.2.1, st.unexpected_msg_queue, st.unexpected_op_queue, r.2.2⟩
  else
    let r := handle_recv_unexpected st.unexpected_msg_queue
      st.unexpected_op_queue st.completion_queue tag payload
    ⟨st.addr, r.2.1, r.2.2.1, r.2.2.2⟩

/-- One handled event inside na_cci_progress (na_cci.c lines 1694-1713): the
switch over the event type; the connect-family handlers are empty. -/
def na_cci_progress_event (st : na_cci_state) : cci_event → na_cci_state
  | cci_event.send => handle_send st
  | cci_event.recv e t p => handle_recv st e t p
  | cci_event.connect_request => st
  | cci_event.connect => st
  | cci_event.accept => st

/-- A run of progress calls, each consuming one transport event (each
na_cci_progress call exits its loop as soon as one event is handled). -/
def na_cci_progress_consume (st : na_cci_state) (evs : List cci_event) : na_cci_state :=
  evs.foldl na_cci_progress_event st

/-- A full trigger drain: every queued completion record is dequeued and its
callback is invoked; the result counts the callbacks invoked. -/
def NA_Trigger_drain (st : na_cci_state) : Nat × na_cci_state :=
  (st.completion_queue.length,
    ⟨st.addr, st.unexpected_msg_queue, st.unexpected_op_queue, []⟩)

/-- na_cci_cancel (na_cci.c lines 1813-1824): the body sets
ret = NA_PROTOCOL_ERROR, carries only a TODO comment, and returns; no queue
is touched and no op is completed. -/
def na_cci_cancel (st : na_cci_state) (_op : Nat) : na_return × na_cci_state :=
  (na_return.NA_PROTOCOL_ERROR, st)

/-- Memory access attribute of a registered region; modelled from the spec:
access is read-only or read-write (the NA_MEM flag constants live in a header
that is not under src). -/
inductive na_mem_attr where
  | read_only
  | readwrite
  deriving DecidableEq, Repr

/-- Registered memory region (struct na_cci_mem_handle). -/
structure na_cci_mem_handle where
  base : Nat
  size : Nat
  attr : na_mem_attr
  deriving DecidableEq, Repr

/-- Result of na_cci_put: the return code, whether cci_rma was invoked, and
whether the op id was assigned to the caller. -/
structure PutOutcome where
  ret : na_return
  rma_posted : Bool
  op_assigned : Bool
  deriving DecidableEq, Repr

/-- na_cci_put (na_cci.c lines 1364-1427): the remote handle attribute is
checked first; anything other than read-write fails with NA_PERMISSION_ERROR
before any op is allocated or cci_rma is called.  The cci_rma transport call
is external, so its return code is a parameter. -/
def na_cci_put (remote : na_cci_mem_handle) (rma_rc : Nat) : PutOutcome :=
  if remote.attr ≠ na_mem_attr.readwrite then
    ⟨na_return.NA_PERMISSION_ERROR, false, false⟩
  else if rma_rc ≠ 0 then ⟨na_return.NA_PROTOCOL_ERROR, true, false⟩
  else ⟨na_return.NA_SUCCESS, true, true⟩

/-- Observable behavior of one HG_Wait call: the millisecond timeouts handed
to the send wait and to the recv wait (none when that future pointer was
already null), the surviving future pointers, and the reported status. -/
structure HgWaitOutcome where
  send_wait_timeout : Option Nat
  recv_wait_timeout : Option Nat
  send_request : Bool
  recv_request : Bool
  status : Bool
  deriving DecidableEq, Repr

/-- HG_Wait (mercury.c lines 863-932).  The remaining budget starts as
timeout / 1000 computed in integer division before the conversion to a
floating value (modelled as a rational).  When the send future is present it
is waited on with the full millisecond timeout, the elapsed seconds e1 are
subtracted from the remaining budget and the result is clamped at zero; the
recv future is then waited on with remaining * 1000 truncated back to an
unsigned integer.  A future whose wait reports completion is destroyed and
its pointer nulled; the status is the conjunction of both pointers being
null.  hg_request_wait is the request-utility collaborator (mercury_request
is not under src): the completion flags f1 and f2 and the elapsed time e1 it
produces are oracle parameters. -/
def HG_Wait (timeout : Nat) (sp rp f1 f2 : Bool) (e1 : ℚ) : HgWaitOutcome :=
  { send_wait_timeout := if sp then some timeout else none
    recv_wait_timeout :=
      if rp then
        some (Int.toNat (Int.floor
          ((if sp then
              (if ((timeout / 1000 : Nat) : ℚ) - e1 < 0 then 0
               else ((timeout / 1000 : Nat) : ℚ) - e1)
            else ((timeout / 1000 : Nat) : ℚ)) * 1000)))
      else none
    send_request := sp && !f1
    recv_request := rp && !f2
    status := !(sp && !f1) && !(rp && !f2) }

/-- The recv-wait budget as the claim states it: the caller-supplied
millisecond timeout decremented by the milliseconds elapsed across the send
wait. -/
def claimed_recv_wait_budget (timeout elapsed1 : Nat) : Nat := timeout - elapsed1

/-- A constant hash used to exhibit two distinct names with equal hashes. -/
def C4_hash : String → Nat := fun _ => 7

/-- A request that owns live send and receive buffers, with no overflow
buffer and neither future completed. -/
def C5_req : hg_request := ⟨true, 64, false, 0, false, true, 64, false, false⟩

/-- A request on the overflow path: live send and receive buffers, a live
1024-byte extra send buffer with a registered bulk handle, neither future
completed. -/
def C6_req : hg_request := ⟨true, 64, true, 1024, true, true, 64, false, false⟩

/-- An address with one staged early expected message of four payload bytes
with tag 7, and no posted receive. -/
def C2_early_addr : na_cci_addr := ⟨[], [⟨[1, 2, 3, 4], 4, 7⟩]⟩

/-- A transport state holding one posted, unmatched expected receive with a
64-byte buffer and tag 7. -/
def C9_state : na_cci_state := ⟨⟨[⟨64, 0, 7⟩], []⟩, [], [], []⟩

/-! Helper lemmas. -/

theorem tbl_lookup_insert (t : List (Nat × hg_proc_info)) (k : Nat)
    (v : hg_proc_info) :
    hg_hash_table_lookup (hg_hash_table_insert t k v) k = some v := by
  induction t with
  | nil => simp [hg_hash_table_insert, hg_hash_table_lookup]
  | cons hd tl ih =>
    obtain ⟨k2, v2⟩ := hd
    by_cases h : k2 = k <;>
      simp [hg_hash_table_insert, hg_hash_table_lookup, h, ih]

theorem tbl_insert_insert (t : List (Nat × hg_proc_info)) (k : Nat)
    (v w : hg_proc_info) :
    hg_hash_table_insert (hg_hash_table_insert t k v) k w =
      hg_hash_table_insert t k w := by
  induction t with
  | nil => simp [hg_hash_table_insert]
  | cons hd tl ih =>
    obtain ⟨k2, v2⟩ := hd
    by_cases h : k2 = k <;> simp [hg_hash_table_insert, h, ih]

/-! Claim theorems. -/

/-- C1: progress consuming a SEND event is claimed to queue exactly one
completion callback, completing the send op so that trigger invokes its
callback; in the code handle_send is an identity on the transport state, so
one consumed SEND event leaves nothing for a full trigger drain to invoke. -/
theorem C1_send_event_drops_completion :
    (∀ st : na_cci_state, handle_send st = st) ∧
    (NA_Trigger_drain
      (na_cci_progress_consume na_cci_state_empty [cci_event.send])).1 = 0 :=
  ⟨fun _ => rfl, rfl⟩

/-- C2: a posted expected receive with a 2-byte buffer against a staged
4-byte early message with the matching tag is claimed to copy 2 bytes and
report actual size 2; in the code the early-match path of
na_cci_msg_recv_expected computes the copy length as the larger of the two
sizes, copies 4 bytes, records actual size 4, and na_cci_complete then fails
with NA_SIZE_ERROR so nothing reaches the completion queue (the staged entry
is consumed).  The later-arrival path handle_recv_expected does clamp the
copy to the posted buffer size. -/
theorem C2_recv_expected_early_copies_max :
    ((na_cci_msg_recv_expected C2_early_addr [] 2 7).1.copy_len = 4 ∧
     (na_cci_msg_recv_expected C2_early_addr [] 2 7).1.actual_size = 4 ∧
     (na_cci_msg_recv_expected C2_early_addr [] 2 7).1.ret =
        na_return.NA_SIZE_ERROR ∧
     (na_cci_msg_recv_expected C2_early_addr [] 2 7).2.1.early = [] ∧
     (na_cci_msg_recv_expected C2_early_addr [] 2 7).2.2 = []) ∧
    ((handle_recv_expected ⟨[⟨2, 0, 7⟩], []⟩ [] 7 [1, 2, 3, 4]).1.copy_len = 2 ∧
     (handle_recv_expected ⟨[⟨2, 0, 7⟩], []⟩ [] 7 [1, 2, 3, 4]).1.actual_size = 2) := by
  decide

/-- C3: an unexpected receive is claimed to copy at most the posted buffer
size on both matching paths.  The staged-message-first path
na_cci_msg_recv_unexpected does truncate (8 bytes copied from a 16-byte
staged message into an 8-byte buffer, actual size 8); the posted-first path
handle_recv_unexpected compares the buffer size against the framing-word
size instead of the payload length, so a 16-byte payload is copied whole
into the posted 8-byte buffer. -/
theorem C3_recv_unexpected_copy_bound :
    ((na_cci_msg_recv_unexpected [⟨List.replicate 16 0, 16, 5⟩] [] [] 8).1.copy_len = 8 ∧
     (na_cci_msg_recv_unexpected [⟨List.replicate 16 0, 16, 5⟩] [] [] 8).1.actual_size = 8 ∧
     (na_cci_msg_recv_unexpected [⟨List.replicate 16 0, 16, 5⟩] [] [] 8).1.completed = true) ∧
    ((handle_recv_unexpected [] [⟨8⟩] [] 5 (List.replicate 16 0)).1.copy_len = 16 ∧
     (handle_recv_unexpected [] [⟨8⟩] [] 5 (List.replicate 16 0)).1.actual_size = 16 ∧
     ¬ (handle_recv_unexpected [] [⟨8⟩] [] 5 (List.replicate 16 0)).1.copy_len ≤ 8) := by
  decide

/-- C4 counterexample: "alpha" and "beta" are distinct names with equal
hashes under C4_hash, yet registering "beta" after "alpha" does not fail: it
returns the shared id 7 (not the failure value 0) and the table afterwards
holds the routines of "beta" in place of those of "alpha". -/
theorem C4_register_collision_counterexample :
    "alpha" ≠ "beta" ∧
    C4_hash "alpha" = C4_hash "beta" ∧
    (HG_Register C4_hash
      (HG_Register C4_hash ⟨true, []⟩ "alpha" 1 2).2 "beta" 3 4).1 = 7 ∧
    (HG_Register C4_hash
      (HG_Register C4_hash ⟨true, []⟩ "alpha" 1 2).2 "beta" 3 4).1 ≠ 0 ∧
    hg_hash_table_lookup
      (HG_Register C4_hash
        (HG_Register C4_hash ⟨true, []⟩ "alpha" 1 2).2 "beta" 3 4).2.table 7 =
      some ⟨3, 4⟩ := by
  decide

/-- C4 (amended): registering a second distinct name whose hash equals an
existing name does not fail with INVALID_PARAM: HG_Register returns the
shared id and the table insert silently replaces the stored encode and
decode routines; registering the same name twice with the same routines
leaves the map unchanged. -/
theorem C4_register_collision_replaces (hash : String → Nat)
    (t : List (Nat × hg_proc_info)) (n1 n2 : String) (e1 d1 e2 d2 : Nat)
    (hcoll : hash n1 = hash n2) :
    (HG_Register hash ⟨true, t⟩ n1 e1 d1).1 = hash n1 ∧
    (HG_Register hash (HG_Register hash ⟨true, t⟩ n1 e1 d1).2 n2 e2 d2).1 =
      hash n1 ∧
    hg_hash_table_lookup
      (HG_Register hash (HG_Register hash ⟨true, t⟩ n1 e1 d1).2 n2 e2 d2).2.table
      (hash n1) = some ⟨e2, d2⟩ ∧
    (HG_Register hash (HG_Register hash ⟨true, t⟩ n1 e1 d1).2 n1 e1 d1).2 =
      (HG_Register hash ⟨true, t⟩ n1 e1 d1).2 := by
  simp [HG_Register, hcoll, tbl_lookup_insert, tbl_insert_insert]

/-- C4 witness: the amended behavior at the concrete collision. -/
theorem C4_register_collision_replaces_witness :
    C4_hash "alpha" = C4_hash "beta" ∧
    ((HG_Register C4_hash ⟨true, []⟩ "alpha" 1 2).1 = C4_hash "alpha" ∧
     (HG_Register C4_hash
        (HG_Register C4_hash ⟨true, []⟩ "alpha" 1 2).2 "beta" 3 4).1 =
        C4_hash "alpha" ∧
     hg_hash_table_lookup
        (HG_Register C4_hash
          (HG_Register C4_hash ⟨true, []⟩ "alpha" 1 2).2 "beta" 3 4).2.table
        (C4_hash "alpha") = some ⟨3, 4⟩ ∧
     (HG_Register C4_hash
        (HG_Register C4_hash ⟨true, []⟩ "alpha" 1 2).2 "alpha" 1 2).2 =
        (HG_Register C4_hash ⟨true, []⟩ "alpha" 1 2).2) :=
  ⟨rfl, C4_register_collision_replaces C4_hash [] "alpha" "beta" 1 2 3 4 rfl⟩

/-- C5 counterexample: the send completion callback running with a transport
failure is claimed to still complete the send future (with an error); on the
concrete request it returns with the request untouched, the send future not
completed and the send buffer still in place. -/
theorem C5_send_cb_failure_counterexample :
    (hg_send_input_cb na_return.NA_PROTOCOL_ERROR C5_req).2.send_request_completed
        = false ∧
    (hg_send_input_cb na_return.NA_PROTOCOL_ERROR C5_req).2.send_buf = true ∧
    (hg_send_input_cb na_return.NA_PROTOCOL_ERROR C5_req).2 = C5_req := by
  decide

/-- C5 (amended): on transport success hg_send_input_cb frees the send
buffer, nulls its pointer, zeroes its size and completes the send future; on
transport failure it returns immediately, leaving the whole request,
including the send buffer and the send future, untouched. -/
theorem C5_send_cb_behavior (r : hg_request) :
    (hg_send_input_cb na_return.NA_SUCCESS r =
      (na_return.NA_SUCCESS,
        { r with send_buf := false, send_buf_size := 0,
                 send_request_completed := true })) ∧
    (∀ ret, ret ≠ na_return.NA_SUCCESS →
      hg_send_input_cb ret r = (na_return.NA_SUCCESS, r)) := by
  constructor
  · simp [hg_send_input_cb]
  · intro ret hne
    simp [hg_send_input_cb, hne]

/-- C5 witness: the failure branch of the amended claim at a concrete
request and return code. -/
theorem C5_send_cb_behavior_witness :
    na_return.NA_PROTOCOL_ERROR ≠ na_return.NA_SUCCESS ∧
    hg_send_input_cb na_return.NA_PROTOCOL_ERROR C5_req =
      (na_return.NA_SUCCESS, C5_req) :=
  ⟨by decide, (C5_send_cb_behavior C5_req).2 na_return.NA_PROTOCOL_ERROR (by decide)⟩

/-- C6: the overflow buffer and its bulk handle are untouched by the send
completion callback on every outcome, are released (pointer nulled, handle
freed and set to the null handle) whenever the receive completion callback
runs with transport success, whatever the later decode outcomes, and are left
in place when the receive callback runs with a transport failure. -/
theorem C6_overflow_release (r : hg_request) (ret : na_return)
    (hdr_ok verify_ok output_ok : Bool) :
    ((hg_send_input_cb ret r).2.extra_send_buf = r.extra_send_buf ∧
     (hg_send_input_cb ret r).2.extra_send_buf_size = r.extra_send_buf_size ∧
     (hg_send_input_cb ret r).2.extra_send_buf_handle = r.extra_send_buf_handle) ∧
    ((hg_recv_output_cb na_return.NA_SUCCESS hdr_ok verify_ok output_ok r).2.extra_send_buf
        = false ∧
     (hg_recv_output_cb na_return.NA_SUCCESS hdr_ok verify_ok output_ok r).2.extra_send_buf_handle
        = false) ∧
    (ret ≠ na_return.NA_SUCCESS →
      (hg_recv_output_cb ret hdr_ok verify_ok output_ok r).2 = r) := by
  refine ⟨?_, ?_, ?_⟩
  · unfold hg_send_input_cb
    split <;> simp
  · cases hdr_ok <;> cases verify_ok <;> cases output_ok <;>
      simp [hg_recv_output_cb]
  · intro hne
    simp [hg_recv_output_cb, hne]

/-- C6 witness: the overflow-path request with a successful receive
completion ends with no extra buffer and a null handle, and a failed receive
completion leaves it untouched. -/
theorem C6_overflow_release_witness :
    na_return.NA_PROTOCOL_ERROR ≠ na_return.NA_SUCCESS ∧
    (hg_recv_output_cb na_return.NA_SUCCESS true true true C6_req).2.extra_send_buf
        = false ∧
    (hg_recv_output_cb na_return.NA_PROTOCOL_ERROR true true true C6_req).2 = C6_req :=
  ⟨by decide,
   (C6_overflow_release C6_req na_return.NA_SUCCESS true true true).2.1.1,
   (C6_overflow_release C6_req na_return.NA_PROTOCOL_ERROR true true true).2.2
     (by decide)⟩

/-- C8: a put whose remote handle is read-only fails with
NA_PERMISSION_ERROR before cci_rma is reached and before any op is assigned;
a read-write remote handle never trips the permission check, whatever the
transport outcome. -/
theorem C8_put_permission (h : na_cci_mem_handle) (rc : Nat) :
    (h.attr = na_mem_attr.read_only →
      na_cci_put h rc = ⟨na_return.NA_PERMISSION_ERROR, false, false⟩) ∧
    (h.attr = na_mem_attr.readwrite →
      (na_cci_put h rc).ret ≠ na_return.NA_PERMISSION_ERROR) := by
  constructor
  · intro ha
    simp [na_cci_put, ha]
  · intro ha
    by_cases hrc : rc = 0 <;> simp [na_cci_put, ha, hrc]

/-- C8 witness: the permission check at a concrete read-only handle. -/
theorem C8_put_permission_witness :
    (⟨0, 16, na_mem_attr.read_only⟩ : na_cci_mem_handle).attr
        = na_mem_attr.read_only ∧
    na_cci_put ⟨0, 16, na_mem_attr.read_only⟩ 0 =
      ⟨na_return.NA_PERMISSION_ERROR, false, false⟩ :=
  ⟨rfl, (C8_put_permission ⟨0, 16, na_mem_attr.read_only⟩ 0).1 rfl⟩

/-- C9: cancelling the op of a posted, unmatched expected receive is claimed
to dequeue the op and complete it with an error; the code returns
NA_PROTOCOL_ERROR unconditionally, leaving the op on the rxs queue and the
completion queue empty. -/
theorem C9_cancel_unconditional :
    (∀ (st : na_cci_state) (op : Nat),
      na_cci_cancel st op = (na_return.NA_PROTOCOL_ERROR, st)) ∧
    (na_cci_cancel C9_state 1).2.addr.rxs = [⟨64, 0, 7⟩] ∧
    (na_cci_cancel C9_state 1).2.completion_queue = [] :=
  ⟨fun _ _ => rfl, rfl, rfl⟩

/-- C10: HG_Error_to_string returns a nonempty string for every code; the
nine codes of the macro chain map to their own names, while
HG_PERMISSION_ERROR falls through to the fixed fallback string. -/
theorem C10_error_to_string :
    (∀ e : hg_return, 0 < (HG_Error_to_string e).length) ∧
    HG_Error_to_string hg_return.HG_SUCCESS = "HG_SUCCESS" ∧
    HG_Error_to_string hg_return.HG_FAIL = "HG_FAIL" ∧
    HG_Error_to_string hg_return.HG_TIMEOUT = "HG_TIMEOUT" ∧
    HG_Error_to_string hg_return.HG_INVALID_PARAM = "HG_INVALID_PARAM" ∧
    HG_Error_to_string hg_return.HG_SIZE_ERROR = "HG_SIZE_ERROR" ∧
    HG_Error_to_string hg_return.HG_NOMEM_ERROR = "HG_NOMEM_ERROR" ∧
    HG_Error_to_string hg_return.HG_PROTOCOL_ERROR = "HG_PROTOCOL_ERROR" ∧
    HG_Error_to_string hg_return.HG_NO_MATCH = "HG_NO_MATCH" ∧
    HG_Error_to_string hg_return.HG_CHECKSUM_ERROR = "HG_CHECKSUM_ERROR" ∧
    HG_Error_to_string hg_return.HG_PERMISSION_ERROR =
      "UNDEFINED/UNRECOGNIZED NA ERROR" ∧
    HG_Error_to_string hg_return.HG_PERMISSION_ERROR ≠ "HG_PERMISSION_ERROR" :=
  ⟨fun e => by cases e <;> decide, by decide⟩

/-- C7 counterexample: with a 1999 ms timeout and a send wait that returns
instantly (no time elapsed), the recv wait is claimed to receive the
remaining 1999 ms; the code computes the remaining budget with integer
division by 1000 before converting to a floating value, so the recv wait
receives only 1000 ms. -/
theorem C7_wait_truncation_counterexample :
    (HG_Wait 1999 true true true true 0).recv_wait_timeout = some 1000 ∧
    claimed_recv_wait_budget 1999 0 = 1999 ∧
    (HG_Wait 1999 true true true true 0).recv_wait_timeout ≠
      some (claimed_recv_wait_budget 1999 0) := by
  refine ⟨?_, rfl, ?_⟩
  · norm_num [HG_Wait]
    rfl
  · norm_num [HG_Wait, claimed_recv_wait_budget]
    decide

/-- C7 (amended): HG_Wait hands the full millisecond timeout to the send
wait and then hands the recv wait the remaining budget computed from the
timeout truncated to whole seconds: max 0 (timeout / 1000 - elapsed seconds)
scaled back to milliseconds; with timeout 0 both waits receive 0 ms, and the
reported status is true exactly when both future pointers are null. -/
theorem C7_wait_behavior (timeout : Nat) (sp rp f1 f2 : Bool) (e1 : ℚ)
    (he : 0 ≤ e1) :
    (HG_Wait timeout sp rp f1 f2 e1).send_wait_timeout =
      (if sp then some timeout else none) ∧
    (sp = true → rp = true →
      (HG_Wait timeout sp rp f1 f2 e1).recv_wait_timeout =
        some (Int.toNat (Int.floor
          ((max 0 (((timeout / 1000 : Nat) : ℚ) - e1)) * 1000)))) ∧
    (timeout = 0 →
      ((HG_Wait timeout sp rp f1 f2 e1).send_wait_timeout = none ∨
       (HG_Wait timeout sp rp f1 f2 e1).send_wait_timeout = some 0) ∧
      ((HG_Wait timeout sp rp f1 f2 e1).recv_wait_timeout = none ∨
       (HG_Wait timeout sp rp f1 f2 e1).recv_wait_timeout = some 0)) ∧
    ((HG_Wait timeout sp rp f1 f2 e1).status = true ↔
      ((HG_Wait timeout sp rp f1 f2 e1).send_request = false ∧
       (HG_Wait timeout sp rp f1 f2 e1).recv_request = false)) := by
  refine ⟨rfl, ?_, ?_, ?_⟩
  · intro hsp hrp
    subst hsp
    subst hrp
    have hmax : (if ((timeout / 1000 : Nat) : ℚ) - e1 < 0 then (0 : ℚ)
        else ((timeout / 1000 : Nat) : ℚ) - e1) =
        max 0 (((timeout / 1000 : Nat) : ℚ) - e1) := by
      rcases lt_or_le (((timeout / 1000 : Nat) : ℚ) - e1) 0 with h | h
      · rw [if_pos h, max_eq_left h.le]
      · rw [if_neg (not_lt.mpr h), max_eq_right h]
    simp only [HG_Wait, if_true]
    rw [hmax]
  · intro h0
    subst h0
    constructor
    · cases sp
      · exact Or.inl rfl
      · exact Or.inr rfl
    · cases rp
      · exact Or.inl rfl
      · refine Or.inr ?_
        have hz : (if sp = true then
            (if ((0 / 1000 : Nat) : ℚ) - e1 < 0 then (0 : ℚ)
             else ((0 / 1000 : Nat) : ℚ) - e1)
            else ((0 / 1000 : Nat) : ℚ)) = 0 := by
          cases sp
          · norm_num
          · rcases lt_or_eq_of_le he with h | h
            · norm_num [if_pos]
              intro hcon
              linarith
            · rw [← h]
              norm_num
        simp only [HG_Wait, if_true]
        rw [hz]
        norm_num
  · cases sp <;> cases rp <;> cases f1 <;> cases f2 <;> simp [HG_Wait]

/-- C7 witness: the amended behavior at the concrete inputs of the
counterexample (timeout 1999 ms, both futures present, both waits complete,
no time elapsed across the send wait). -/
theorem C7_wait_behavior_witness :
    (0 : ℚ) ≤ 0 ∧
    ((HG_Wait 1999 true true true true 0).send_wait_timeout =
      (if true then some 1999 else none) ∧
    (true = true → true = true →
      (HG_Wait 1999 true true true true 0).recv_wait_timeout =
        some (Int.toNat (Int.floor
          ((max 0 (((1999 / 1000 : Nat) : ℚ) - 0)) * 1000)))) ∧
    ((1999 : Nat) = 0 →
      ((HG_Wait 1999 true true true true 0).send_wait_timeout = none ∨
       (HG_Wait 1999 true true true true 0).send_wait_timeout = some 0) ∧
      ((HG_Wait 1999 true true true true 0).recv_wait_timeout = none ∨
       (HG_Wait 1999 true true true true 0).recv_wait_timeout = some 0)) ∧
    ((HG_Wait 1999 true true true true 0).status = true ↔
      ((HG_Wait 1999 true true true true 0).send_request = false ∧
       (HG_Wait 1999 true true true true 0).recv_request = false))) :=
  ⟨le_refl 0, C7_wait_behavior 1999 true true true true 0 (le_refl 0)⟩
